import Mathlib

/-!
# Verification of the jetson-monitor metrics engine (src/app.py)

A shallow embedding of the metrics-collection engine in `src/app.py`.
Python strings are Lean `String`s, Python floats are exact rationals `ℚ`,
Python exceptions are an explicit `PyExc` type threaded through `Except`,
and external effects (subprocess spawn, file reads, psutil samples) are
passed in as explicit arguments describing their outcome.
-/

attribute [local semireducible] Rat.mul Rat.inv Rat.add Rat.sub Rat.ofScientific

deriving instance DecidableEq for Except

namespace JetsonMonitor

/-- The Python exception classes that the engine's `try/except` clauses
distinguish.  `nvmlError` stands for `pynvml.NVMLError`, `otherError`
for any further `Exception` subclass. -/
inductive PyExc where
  | valueError
  | indexError
  | zeroDivisionError
  | fileNotFoundError
  | permissionError
  | subprocessError
  | nvmlError
  | otherError
deriving DecidableEq

/-! ## Python string primitives -/

/-- One scan step of Python `str.split(sep)` for a nonempty separator:
leftmost, non-overlapping occurrences.  `fuel` bounds the recursion; every
step consumes at least one character, so `fuel = length of the input`
never runs out. -/
def splitOnGo (sep : List Char) : Nat → List Char → List Char → List (List Char)
  | _, [], acc => [acc.reverse]
  | 0, l, acc => [acc.reverse ++ l]
  | fuel + 1, c :: rest, acc =>
    if sep.isPrefixOf (c :: rest) then
      acc.reverse :: splitOnGo sep fuel ((c :: rest).drop sep.length) []
    else
      splitOnGo sep fuel rest (c :: acc)

/-- Python `s.split(sep)` with an explicit separator: raises `ValueError`
("empty separator") when `sep` is empty. -/
def pySplit (s sep : String) : Except PyExc (List String) :=
  match sep.data with
  | [] => .error .valueError
  | c :: cs => .ok ((splitOnGo (c :: cs) s.data.length s.data []).map String.mk)

/-- Python substring membership `sub in s` (always true for `sub = ""`). -/
def containsL (sub : List Char) : List Char → Bool
  | [] => sub.isEmpty
  | c :: rest => sub.isPrefixOf (c :: rest) || containsL sub rest

/-- Python `sub in s`. -/
def pyContains (s sub : String) : Bool :=
  containsL sub.data s.data

/-- Python `l[i]`: `IndexError` when out of range. -/
def pyGetItem {α : Type} (l : List α) (i : Nat) : Except PyExc α :=
  match l.get? i with
  | some a => .ok a
  | none => .error .indexError

/-- Python tuple unpacking `a, b = l`: `ValueError` unless `l` has exactly
two elements. -/
def pyUnpack2 {α : Type} (l : List α) : Except PyExc (α × α) :=
  match l with
  | [a, b] => .ok (a, b)
  | _ => .error .valueError

/-- Drop characters satisfying `p` from both ends of a list. -/
def stripL (p : Char → Bool) (l : List Char) : List Char :=
  ((l.dropWhile p).reverse.dropWhile p).reverse

/-- Python `s.strip()` (whitespace from both ends). -/
def pyStrip (s : String) : String :=
  String.mk (stripL Char.isWhitespace s.data)

/-- Python `s.strip(chars)`: strips any of the given characters from both
ends. -/
def pyStripChars (chars : List Char) (s : String) : String :=
  String.mk (stripL (fun c => chars.contains c) s.data)

/-! ## Python numeric conversions

Python `float()` / `int()` are modelled over exact rationals.  The parser
covers the grammar the diagnostic lines exercise: optional sign, decimal
digits, optional fractional part (exponents, `inf`, `nan` and digit
underscores are outside the modelled subset); anything else raises
`ValueError`, exactly like `float()` on malformed text. -/

/-- Decimal digits to a natural number. -/
def digitsToNat (l : List Char) : Nat :=
  l.foldl (fun n c => 10 * n + (c.toNat - '0'.toNat)) 0

/-- Unsigned part of the `float()` grammar: `digits [. digits?]` or
`. digits`. -/
def parseUnsigned (l : List Char) : Option ℚ :=
  let intPart := l.takeWhile Char.isDigit
  let rest := l.dropWhile Char.isDigit
  match rest with
  | [] => if intPart.isEmpty then none else some (digitsToNat intPart : ℚ)
  | '.' :: frac =>
    if frac.all Char.isDigit && !(intPart.isEmpty && frac.isEmpty) then
      some ((digitsToNat intPart : ℚ) + (digitsToNat frac : ℚ) / (10 ^ frac.length))
    else none
  | _ => none

/-- Sign handling of the `float()` grammar. -/
def pyFloatCore (l : List Char) : Option ℚ :=
  match l with
  | '+' :: r => parseUnsigned r
  | '-' :: r => (parseUnsigned r).map (fun q => -q)
  | r => parseUnsigned r

/-- Python `float(s)`: strips whitespace, optional sign, then the unsigned
grammar; `ValueError` on failure. -/
def pyFloat (s : String) : Except PyExc ℚ :=
  match pyFloatCore (pyStrip s).data with
  | some q => .ok q
  | none => .error .valueError

/-- Unsigned decimal integer digits, as used by `int()`. -/
def parseUnsignedInt (l : List Char) : Option ℤ :=
  if l.isEmpty then none
  else if l.all Char.isDigit then some (digitsToNat l : ℤ)
  else none

/-- Sign handling of the `int()` grammar. -/
def pyIntCore (l : List Char) : Option ℤ :=
  match l with
  | '+' :: r => parseUnsignedInt r
  | '-' :: r => (parseUnsignedInt r).map (fun n => -n)
  | r => parseUnsignedInt r

/-- Python `int(s)` on decimal text: strips whitespace, optional sign,
digits; `ValueError` on failure. -/
def pyInt (s : String) : Except PyExc ℤ :=
  match pyIntCore (pyStrip s).data with
  | some n => .ok n
  | none => .error .valueError

/-- Python `a / b` on numbers: `ZeroDivisionError` when `b = 0`. -/
def pyDiv (a b : ℚ) : Except PyExc ℚ :=
  if b = 0 then .error .zeroDivisionError else .ok (a / b)

/-- Python `int(x)` on a float: truncation toward zero. -/
def pyTrunc (q : ℚ) : ℤ :=
  if 0 ≤ q then ⌊q⌋ else -⌊-q⌋

/-! ## Python float formatting

`f"{x:.df}"` rounds the value to `d` decimal places (ties to even, the
behaviour CPython exhibits on exactly representable ties) and prints the
fractional part with exactly `d` digits. -/

/-- Round a rational to the nearest integer, ties to even. -/
def rhe (q : ℚ) : ℤ :=
  let f := ⌊q⌋
  let r := q - f
  if r < 1 / 2 then f
  else if 1 / 2 < r then f + 1
  else if f % 2 = 0 then f else f + 1

/-- Python `round(x, 1)` (ties to even), over exact rationals. -/
def round1 (q : ℚ) : ℚ :=
  (rhe (q * 10) : ℚ) / 10

/-- Exactly `d` decimal digits of the fraction numerator `fp < 10 ^ d`,
most significant first. -/
def fixedDigits (d fp : Nat) : String :=
  String.mk ((List.range d).map fun i => Char.ofNat ('0'.toNat + fp / 10 ^ (d - 1 - i) % 10))

/-- Rendering of `f"{q:.df}"` for a nonnegative rational. -/
def pyFormatFixedNonneg (d : Nat) (q : ℚ) : String :=
  let n := (rhe (q * 10 ^ d)).toNat
  if d = 0 then toString n
  else toString (n / 10 ^ d) ++ "." ++ fixedDigits d (n % 10 ^ d)

/-- Rendering of `f"{q:.df}"`. -/
def pyFormatFixed (d : Nat) (q : ℚ) : String :=
  if q < 0 then "-" ++ pyFormatFixedNonneg d (-q) else pyFormatFixedNonneg d q

/-! ## Data model -/

/-- One per-core sample from the `CPU [...]` segment of a tegrastats line. -/
structure CpuCore where
  usage : ℚ
  frequency : ℚ
deriving DecidableEq

/-- The variant-shaped `gpu_metrics` dictionary: every key the code can
insert is an optional field, absent (`none`) unless its source text
contained a well-formed value.  Both the Jetson and the NVML provider
return this shape; `error` is the error-payload key. -/
structure GpuMetrics where
  gpu_utilization : Option ℚ := none
  gpu_temperature : Option ℚ := none
  cpu_temperature : Option ℚ := none
  total_power : Option ℚ := none
  gpu_power : Option ℚ := none
  ram_used : Option ℚ := none
  ram_total : Option ℚ := none
  ram_percent : Option ℚ := none
  cpu_cores : Option (List CpuCore) := none
  gpu_memory_percent : Option ℚ := none
  gpu_memory_used : Option ℚ := none
  gpu_memory_total : Option ℚ := none
  error : Option String := none
deriving DecidableEq

/-! ## DiagnosticTextParser: `parse_tegrastats_value` (app.py lines 41-49) -/

/-- The exception classes named by `except (ValueError, IndexError)`. -/
def catchParseExc (e : PyExc) : Bool :=
  e = .valueError || e = .indexError

/-- Extraction step `stats.split(key)[1].split(unit)[0].strip()`, with each of its
exception surfaced. -/
def extractPart (stats key unit : String) : Except PyExc String := do
  let parts ← pySplit stats key
  let afterKey ← pyGetItem parts 1
  let parts2 ← pySplit afterKey unit
  let beforeUnit ← pyGetItem parts2 0
  return pyStrip beforeUnit

/-- The body of `parse_tegrastats_value` before its `except` clause:
guard `key in stats`, extract, `float(...)`. -/
def parse_tegrastats_body (stats key unit : String) : Except PyExc (Option ℚ) :=
  if pyContains stats key then do
    let part ← extractPart stats key unit
    let v ← pyFloat part
    return some v
  else
    return none

/-- Embedding of `parse_tegrastats_value(stats, key, unit)`: the body with
`except (ValueError, IndexError)` returning `None`. -/
def parse_tegrastats_value (stats key unit : String) : Except PyExc (Option ℚ) :=
  match parse_tegrastats_body stats key unit with
  | .ok v => .ok v
  | .error e => if catchParseExc e then .ok none else .error e

/-- Convenience projection of `parse_tegrastats_value`.  The body only
ever raises `ValueError` or `IndexError` (see
`parse_tegrastats_body_err`), both caught, so the `.error` branch here is
unreachable and the collapse to `Option` is faithful. -/
def parse_val (stats key unit : String) : Option ℚ :=
  match parse_tegrastats_value stats key unit with
  | .ok v => v
  | .error _ => none

/-! ## JetsonGpuProvider: `get_jetson_gpu_metrics` (app.py lines 51-126) -/

/-- The error payload `{'error': 'Failed to get GPU metrics'}`. -/
def gpuErrorMetrics : GpuMetrics :=
  { error := some "Failed to get GPU metrics" }

/-- The classes named by the provider's outer
`except (subprocess.SubprocessError, ValueError)`. -/
def jetsonCatch (e : PyExc) : Bool :=
  e = .subprocessError || e = .valueError

/-- Handler `except (ValueError, IndexError)` around a block that mutates
`metrics` in place: on a caught class, keep the dict as already mutated;
otherwise re-raise. -/
def catchVEIE (e : PyExc) (m : GpuMetrics) : Except PyExc GpuMetrics :=
  if catchParseExc e then .ok m else .error e

/-- The `RAM` block (app.py lines 96-104): dict keys are inserted one at
a time, so a failure partway keeps the earlier insertions; the
uncaught-class case (`ZeroDivisionError` from a zero total) re-raises.
`float(used)` and `float(total)` are re-evaluated for the percent line in
the source; being deterministic, their first results are reused here. -/
def ramStep (stats : String) (m : GpuMetrics) : Except PyExc GpuMetrics :=
  if pyContains stats "RAM" then
    match (do
      let parts ← pySplit stats "RAM"
      let afterRam ← pyGetItem parts 1
      let parts2 ← pySplit afterRam "MB"
      let beforeMB ← pyGetItem parts2 0
      pySplit (pyStrip beforeMB) "/" : Except PyExc (List String)) with
    | .error e => catchVEIE e m
    | .ok pieces =>
      match pyUnpack2 pieces with
      | .error e => catchVEIE e m
      | .ok (used, total) =>
        match pyFloat used with
        | .error e => catchVEIE e m
        | .ok u =>
          let m1 := { m with ram_used := some u }
          match pyFloat total with
          | .error e => catchVEIE e m1
          | .ok t =>
            let m2 := { m1 with ram_total := some t }
            match pyDiv u t with
            | .error e => catchVEIE e m2
            | .ok q => .ok { m2 with ram_percent := some (q * 100) }
  else .ok m

/-- One core token of the `CPU [...]` segment:
`float(core.split('@')[0].strip('%'))` then `float(core.split('@')[1])`,
with the per-core `except (ValueError, IndexError): continue`.  Those two
classes are the only ones these steps can raise, so collapsing to
`Option` is faithful. -/
def parseCore (core : String) : Option CpuCore :=
  match (do
    let parts ← pySplit core "@"
    let usagePart ← pyGetItem parts 0
    let usage ← pyFloat (pyStripChars ['%'] usagePart)
    let parts2 ← pySplit core "@"
    let freqPart ← pyGetItem parts2 1
    let freq ← pyFloat freqPart
    return CpuCore.mk usage freq : Except PyExc CpuCore) with
  | .ok c => some c
  | .error _ => none

/-- The `CPU [` block (app.py lines 107-120). -/
def cpuStep (stats : String) (m : GpuMetrics) : Except PyExc GpuMetrics :=
  if pyContains stats "CPU [" then
    match (do
      let parts ← pySplit stats "CPU ["
      let afterKey ← pyGetItem parts 1
      let parts2 ← pySplit afterKey "]"
      pyGetItem parts2 0 : Except PyExc String) with
    | .error e => catchVEIE e m
    | .ok cpuPart =>
      match pySplit cpuPart "," with
      | .error e => catchVEIE e m
      | .ok cores => .ok { m with cpu_cores := some (cores.filterMap parseCore) }
  else .ok m

/-- The five `parse_tegrastats_value` extractions at the top of the
provider, each inserting its key only when a value was parsed. -/
def parsePrelude (stats : String) : GpuMetrics :=
  let m : GpuMetrics := {}
  let m := match parse_val stats "GR3D_FREQ" "%" with
    | some v => { m with gpu_utilization := some v }
    | none => m
  let m := match parse_val stats "gpu@" "C" with
    | some v => { m with gpu_temperature := some v }
    | none => m
  let m := match parse_val stats "cpu@" "C" with
    | some v => { m with cpu_temperature := some v }
    | none => m
  let m := match parse_val stats "VDD_IN" "mW" with
    | some v => { m with total_power := some v }
    | none => m
  match parse_val stats "VDD_CPU_GPU_CV" "mW" with
  | some v => { m with gpu_power := some v }
  | none => m

/-- Embedding of `get_jetson_gpu_metrics()`.  The spawn/readline/terminate/wait phase
is summarised by its outcome `spawn`: the first line of tegrastats output,
or the exception the phase raised (`FileNotFoundError` when the
executable is absent, `subprocess.SubprocessError` subclasses such as
`TimeoutExpired`, ...).  The outer
`except (subprocess.SubprocessError, ValueError)` maps caught classes to
the error payload; anything else propagates to the caller. -/
def get_jetson_gpu_metrics (spawn : Except PyExc String) : Except PyExc GpuMetrics :=
  match spawn with
  | .error e => if jetsonCatch e then .ok gpuErrorMetrics else .error e
  | .ok line =>
    match ramStep (pyStrip line) (parsePrelude (pyStrip line)) with
    | .error e => if jetsonCatch e then .ok gpuErrorMetrics else .error e
    | .ok m =>
      match cpuStep (pyStrip line) m with
      | .error e => if jetsonCatch e then .ok gpuErrorMetrics else .error e
      | .ok m => .ok m

/-! ## DiscreteGpuProvider and GpuMetricsSelector (app.py lines 128-153) -/

/-- The NVML device queries of `get_nvidia_gpu_metrics`: utilization plus
memory-info used/total in bytes. -/
structure NvmlInfo where
  gpu : ℚ
  memUsed : Nat
  memTotal : Nat
deriving DecidableEq

/-- Constant `BYTES_PER_MB = 1024 * 1024`. -/
def BYTES_PER_MB : ℚ := 1024 * 1024

/-- Constant `BYTES_PER_KB = 1024`. -/
def BYTES_PER_KB : ℚ := 1024

/-- Embedding of `get_nvidia_gpu_metrics()`: the NVML query outcome is either the
queried counters or the message of the `pynvml.NVMLError` the query
raised (the only class those calls raise and the only one caught). -/
def get_nvidia_gpu_metrics (query : Except String NvmlInfo) : Except PyExc GpuMetrics :=
  match query with
  | .error msg => .ok { error := some ("Failed to get GPU metrics: " ++ msg) }
  | .ok info =>
    match pyDiv (info.memUsed : ℚ) (info.memTotal : ℚ) with
    | .error e => .error e
    | .ok frac =>
      .ok { gpu_utilization := some info.gpu,
            gpu_memory_percent := some (frac * 100),
            gpu_memory_used := some ((info.memUsed : ℚ) / BYTES_PER_MB),
            gpu_memory_total := some ((info.memTotal : ℚ) / BYTES_PER_MB) }

/-- Embedding of `get_gpu_metrics()`: Jetson path or NVML path; `nvmlInitOk = false`
stands for `pynvml.nvmlInit()` raising `NVMLError` (caught). -/
def get_gpu_metrics (jetson : Bool) (spawn : Except PyExc String)
    (nvmlInitOk : Bool) (query : Except String NvmlInfo) : Except PyExc GpuMetrics :=
  if jetson then get_jetson_gpu_metrics spawn
  else if nvmlInitOk then get_nvidia_gpu_metrics query
  else .ok { error := some "No NVIDIA GPU detected" }

/-! ## MemoryPressureCalculator (app.py lines 155-178) -/

/-- The fields of `psutil.virtual_memory()` the engine reads. -/
structure VirtualMemory where
  percent : ℚ
  available : ℚ
  total : ℚ
deriving DecidableEq

/-- The fields of `psutil.swap_memory()` the engine reads. -/
structure SwapMemory where
  percent : ℚ
  used : ℚ
  total : ℚ
  free : ℚ
deriving DecidableEq

/-- Embedding of `calculate_memory_pressure(memory, swap)`:
weights 0.7 / 0.2 / 0.1, clamp to [0, 100], low-usage cap at 50, round to
one decimal.  `memory.available / memory.total` raises
`ZeroDivisionError` when `memory.total = 0`. -/
def calculate_memory_pressure (memory : VirtualMemory) (swap : SwapMemory) :
    Except PyExc ℚ := do
  let memory_usage_component := memory.percent * 0.7
  let swap_component := swap.percent * 0.2
  let frac ← pyDiv memory.available memory.total
  let available_component := (100 - frac * 100) * 0.1
  let memory_pressure := memory_usage_component + swap_component + available_component
  let memory_pressure := min 100 (max 0 memory_pressure)
  let memory_pressure :=
    if memory.percent < 50 ∧ swap.percent < 20 then min memory_pressure 50
    else memory_pressure
  return round1 memory_pressure

/-- The memory-pressure score as the specification words it, for
comparison with `calculate_memory_pressure`: raw weighted sum, clamp to
[0, 100], then — exactly when `memoryPercent < 50` and `swapPercent < 20`
— cap the clamped value at 50, and round to one decimal. -/
def memoryPressureSpec (memoryPercent memoryAvailable memoryTotal swapPercent : ℚ) : ℚ :=
  let raw := memoryPercent * 0.7 + swapPercent * 0.2 +
    (100 - memoryAvailable / memoryTotal * 100) * 0.1
  let clamped := min 100 (max 0 raw)
  round1 (if memoryPercent < 50 ∧ swapPercent < 20 then min clamped 50 else clamped)

/-- The `swap` sub-dictionary of the memory-pressure result (MB). -/
structure SwapOut where
  used : ℚ
  total : ℚ
  percent : ℚ
  free : ℚ
deriving DecidableEq

/-- The `memory` sub-dictionary of the memory-pressure result (MB). -/
structure MemOut where
  available : ℚ
  total : ℚ
  percent : ℚ
deriving DecidableEq

/-- The result shape of `get_memory_pressure_metrics`. -/
structure MemoryPressureMetrics where
  memory_pressure : ℚ
  swap : SwapOut
  memory : MemOut
deriving DecidableEq

/-- The all-zero fallback structure returned from the `except Exception`
branch of `get_memory_pressure_metrics`. -/
def zeroMemoryPressureMetrics : MemoryPressureMetrics :=
  { memory_pressure := 0, swap := ⟨0, 0, 0, 0⟩, memory := ⟨0, 0, 0⟩ }

/-- The `try` body of `get_memory_pressure_metrics`, given the outcome of
the two psutil sampling calls. -/
def memory_pressure_body (src : Except PyExc (VirtualMemory × SwapMemory)) :
    Except PyExc MemoryPressureMetrics := do
  let (memory, swap) ← src
  let memory_pressure ← calculate_memory_pressure memory swap
  return { memory_pressure,
           swap := ⟨swap.used / BYTES_PER_MB, swap.total / BYTES_PER_MB,
                    swap.percent, swap.free / BYTES_PER_MB⟩,
           memory := ⟨memory.available / BYTES_PER_MB, memory.total / BYTES_PER_MB,
                      memory.percent⟩ }

/-- Embedding of `get_memory_pressure_metrics()` (app.py lines 180-214): any exception
in the body is caught by `except Exception` and mapped to the all-zero
structure. -/
def get_memory_pressure_metrics (src : Except PyExc (VirtualMemory × SwapMemory)) :
    MemoryPressureMetrics :=
  match memory_pressure_body src with
  | .ok r => r
  | .error _ => zeroMemoryPressureMetrics

/-! ## ThermalStatusProbe (app.py lines 216-262) -/

/-- The result shape of `get_thermal_throttling_status`. -/
structure ThermalStatus where
  cpu_throttled : Bool
  gpu_throttled : Bool
  status : String
deriving DecidableEq

/-- The `try` body of `get_thermal_throttling_status`.  On a Jetson the
tegrastats spawn outcome `tegra` is consumed (its exceptions propagate to
the outer handler); on a standard host the throttle-counter file outcome
`throttleFile` is read under
`except (FileNotFoundError, PermissionError, ValueError)`. -/
def thermal_body (jetson : Bool) (tegra throttleFile : Except PyExc String) :
    Except PyExc ThermalStatus :=
  if jetson then do
    let line ← tegra
    let stats := pyStrip line
    let cpu_throttled := pyContains stats "CPU_THROTTLE"
    let gpu_throttled := pyContains stats "GPU_THROTTLE"
    return ⟨cpu_throttled, gpu_throttled,
            if cpu_throttled || gpu_throttled then "Throttled" else "Normal"⟩
  else
    match (do
      let content ← throttleFile
      pyInt (pyStrip content) : Except PyExc ℤ) with
    | .ok throttle_count =>
      .ok ⟨decide (throttle_count > 0), false,
           if throttle_count > 0 then "Throttled" else "Normal"⟩
    | .error e =>
      if e = .fileNotFoundError || e = .permissionError || e = .valueError then
        .ok ⟨false, false, "Unknown"⟩
      else .error e

/-- Embedding of `get_thermal_throttling_status()`: the body under a top-level
`except Exception` mapping any fault to status `"Error"`. -/
def get_thermal_throttling_status (jetson : Bool)
    (tegra throttleFile : Except PyExc String) : ThermalStatus :=
  match thermal_body jetson tegra throttleFile with
  | .ok r => r
  | .error _ => ⟨false, false, "Error"⟩

/-! ## Byte and uptime formatting (app.py lines 264-280) -/

/-- Embedding of `format_bytes(bytes_value)`. -/
def format_bytes (bytes_value : Nat) : String :=
  if (bytes_value : ℚ) ≥ BYTES_PER_MB * 1024 then
    pyFormatFixed 2 ((bytes_value : ℚ) / (BYTES_PER_MB * 1024)) ++ " GB"
  else if (bytes_value : ℚ) ≥ BYTES_PER_MB then
    pyFormatFixed 1 ((bytes_value : ℚ) / BYTES_PER_MB) ++ " MB"
  else if (bytes_value : ℚ) ≥ BYTES_PER_KB then
    pyFormatFixed 1 ((bytes_value : ℚ) / BYTES_PER_KB) ++ " KB"
  else
    toString bytes_value ++ " B"

/-- Embedding of `format_uptime(uptime_seconds)`; Python `//` and `%` are floor
division and nonnegative-remainder mod. -/
def format_uptime (uptime_seconds : ℤ) : String :=
  let hours := Int.fdiv uptime_seconds 3600
  let minutes := Int.fdiv (Int.emod uptime_seconds 3600) 60
  let seconds := Int.emod uptime_seconds 60
  toString hours ++ "h " ++ toString minutes ++ "m " ++ toString seconds ++ "s"

/-! ## NetworkThroughputTracker: `get_network_metrics` (app.py lines 282-314) -/

/-- The cumulative counters from `psutil.net_io_counters()`. -/
structure NetCounters where
  bytes_sent : Nat
  bytes_recv : Nat
deriving DecidableEq

/-- The process-wide carried state: the previous sample's counters and
wall-clock time (the function attributes `prev_net_io` / `prev_time`). -/
structure NetState where
  prev_counters : NetCounters
  prev_time : ℚ
deriving DecidableEq

/-- The dictionary returned by `get_network_metrics`. -/
structure NetworkMetrics where
  bytes_sent : Nat
  bytes_recv : Nat
  bytes_sent_human : String
  bytes_recv_human : String
  sent_speed : ℚ
  recv_speed : ℚ
  sent_speed_human : String
  recv_speed_human : String
deriving DecidableEq

/-- Embedding of `get_network_metrics()`, with the hidden function-attribute state made
explicit: takes the stored state (`none` on the first call after process
start), the current counters and the current time, and returns the
metrics dictionary together with the updated stored state. -/
def get_network_metrics (st : Option NetState) (cur : NetCounters)
    (current_time : ℚ) : NetworkMetrics × NetState :=
  let speeds : ℚ × ℚ :=
    match st with
    | none => (0, 0)
    | some prev =>
      let time_diff := current_time - prev.prev_time
      if time_diff > 0 then
        (((cur.bytes_sent : ℚ) - (prev.prev_counters.bytes_sent : ℚ)) / time_diff,
         ((cur.bytes_recv : ℚ) - (prev.prev_counters.bytes_recv : ℚ)) / time_diff)
      else (0, 0)
  ({ bytes_sent := cur.bytes_sent,
     bytes_recv := cur.bytes_recv,
     bytes_sent_human := format_bytes cur.bytes_sent,
     bytes_recv_human := format_bytes cur.bytes_recv,
     sent_speed := speeds.1,
     recv_speed := speeds.2,
     sent_speed_human := pyFormatFixed 1 (speeds.1 / BYTES_PER_KB) ++ " KB/s",
     recv_speed_human := pyFormatFixed 1 (speeds.2 / BYTES_PER_KB) ++ " KB/s" },
   ⟨cur, current_time⟩)

/-! ## MetricsAggregator: `get_system_metrics` (app.py lines 316-360) -/

/-- The `platform` sub-dictionary of a snapshot. -/
structure PlatformInfo where
  system : String
  machine : String
  is_jetson : Bool
deriving DecidableEq

/-- The snapshot dictionary returned by `get_system_metrics`. -/
structure Snapshot where
  timestamp : String
  cpu_percent : ℚ
  memory_percent : ℚ
  disk_percent : ℚ
  uptime : String
  network : NetworkMetrics
  gpu_metrics : GpuMetrics
  platform : PlatformInfo
  memory_pressure : MemoryPressureMetrics
  thermal_status : ThermalStatus
deriving DecidableEq

/-- The environment a single `get_system_metrics()` call observes: psutil
samples, platform facts, the tegrastats and throttle-file outcomes, the
NVML outcomes, the stored network state and the clock readings. -/
structure SysInputs where
  timestamp : String
  cpu_percent : ℚ
  memory : VirtualMemory
  memSrc : Except PyExc (VirtualMemory × SwapMemory)
  jetson : Bool
  tegraGpu : Except PyExc String
  tegraThermal : Except PyExc String
  throttleFile : Except PyExc String
  nvmlInitOk : Bool
  nvmlQuery : Except String NvmlInfo
  disk_percent : ℚ
  netState : Option NetState
  netCounters : NetCounters
  netTime : ℚ
  now : ℚ
  boot_time : ℚ
  system : String
  machine : String
deriving DecidableEq

/-- Embedding of `get_system_metrics()`: every sub-collection except the GPU one is
total by its own contract; an exception escaping `get_gpu_metrics`
propagates out of the whole snapshot call (there is no handler in
`get_system_metrics` or above it). -/
def get_system_metrics (inp : SysInputs) : Except PyExc Snapshot :=
  match get_gpu_metrics inp.jetson inp.tegraGpu inp.nvmlInitOk inp.nvmlQuery with
  | .error e => .error e
  | .ok gpu =>
    .ok { timestamp := inp.timestamp,
          cpu_percent := inp.cpu_percent,
          memory_percent := inp.memory.percent,
          disk_percent := inp.disk_percent,
          uptime := format_uptime (pyTrunc (inp.now - inp.boot_time)),
          network := (get_network_metrics inp.netState inp.netCounters inp.netTime).1,
          gpu_metrics := gpu,
          platform := ⟨inp.system, inp.machine, inp.jetson⟩,
          memory_pressure := get_memory_pressure_metrics inp.memSrc,
          thermal_status := get_thermal_throttling_status inp.jetson
            inp.tegraThermal inp.throttleFile }

/-! ## Helper lemmas: which exception classes each primitive can raise -/

theorem bind_err_class {α β : Type} {p : PyExc → Bool} {x : Except PyExc α}
    {f : α → Except PyExc β}
    (hx : ∀ e, x = .error e → p e = true) (hf : ∀ a e, f a = .error e → p e = true) :
    ∀ e, (x >>= f) = .error e → p e = true := by
  intro e h
  cases x with
  | error e1 =>
    simp only [Bind.bind, Except.bind, Except.error.injEq] at h
    subst h
    exact hx _ rfl
  | ok a =>
    simp only [Bind.bind, Except.bind] at h
    exact hf a e h

theorem pure_not_err {α : Type} (a : α) :
    ∀ e : PyExc, (pure a : Except PyExc α) = .error e → False := by
  intro e h
  simp only [pure, Except.pure] at h
  cases h

theorem pySplit_err {s sep : String} {e : PyExc} (h : pySplit s sep = .error e) :
    e = .valueError := by
  unfold pySplit at h
  cases hd : sep.data with
  | nil => rw [hd] at h; cases h; rfl
  | cons c cs => rw [hd] at h; cases h

theorem pyGetItem_err {α : Type} {l : List α} {i : Nat} {e : PyExc}
    (h : pyGetItem l i = .error e) : e = .indexError := by
  unfold pyGetItem at h
  cases hg : l.get? i with
  | some a => rw [hg] at h; cases h
  | none => rw [hg] at h; cases h; rfl

theorem pyUnpack2_err {α : Type} {l : List α} {e : PyExc}
    (h : pyUnpack2 l = .error e) : e = .valueError := by
  unfold pyUnpack2 at h
  match l, h with
  | [], h => cases h; rfl
  | [a], h => cases h; rfl
  | [a, b], h => cases h
  | a :: b :: c :: t, h => cases h; rfl

theorem pyFloat_err {s : String} {e : PyExc} (h : pyFloat s = .error e) :
    e = .valueError := by
  unfold pyFloat at h
  rcases hp : pyFloatCore (pyStrip s).data with _ | q <;> rw [hp] at h
  · cases h; rfl
  · cases h

theorem pyInt_err {s : String} {e : PyExc} (h : pyInt s = .error e) :
    e = .valueError := by
  unfold pyInt at h
  rcases hp : pyIntCore (pyStrip s).data with _ | n <;> rw [hp] at h
  · cases h; rfl
  · cases h

theorem extractPart_err {stats key unit : String} {e : PyExc}
    (h : extractPart stats key unit = .error e) : catchParseExc e = true := by
  unfold extractPart at h
  revert h
  refine bind_err_class (fun e1 h1 => ?_) (fun parts e1 h1 => ?_) e
  · simp [catchParseExc, pySplit_err h1]
  · revert h1
    refine bind_err_class (fun e2 h2 => ?_) (fun afterKey e2 h2 => ?_) e1
    · simp [catchParseExc, pyGetItem_err h2]
    · revert h2
      refine bind_err_class (fun e3 h3 => ?_) (fun parts2 e3 h3 => ?_) e2
      · simp [catchParseExc, pySplit_err h3]
      · revert h3
        refine bind_err_class (fun e4 h4 => ?_) (fun beforeUnit e4 h4 => ?_) e3
        · simp [catchParseExc, pyGetItem_err h4]
        · exact (pure_not_err _ _ h4).elim

theorem parse_tegrastats_body_err {stats key unit : String} {e : PyExc}
    (h : parse_tegrastats_body stats key unit = .error e) : catchParseExc e = true := by
  unfold parse_tegrastats_body at h
  by_cases hc : pyContains stats key
  · rw [if_pos hc] at h
    revert h
    refine bind_err_class (fun e1 h1 => extractPart_err h1) (fun part e1 h1 => ?_) e
    revert h1
    refine bind_err_class (fun e2 h2 => ?_) (fun v e2 h2 => ?_) e1
    · simp [catchParseExc, pyFloat_err h2]
    · exact (pure_not_err _ _ h2).elim
  · rw [if_neg hc] at h
    exact (pure_not_err _ _ h).elim

theorem parse_tegrastats_value_total (stats key unit : String) :
    ∃ v, parse_tegrastats_value stats key unit = .ok v := by
  unfold parse_tegrastats_value
  cases hb : parse_tegrastats_body stats key unit with
  | ok v => exact ⟨v, rfl⟩
  | error e => exact ⟨none, by simp [parse_tegrastats_body_err hb]⟩

/-! ## Helper lemmas: structure of the Jetson provider result -/

theorem catchVEIE_ok {e : PyExc} {m m' : GpuMetrics}
    (h : catchVEIE e m = .ok m') : m' = m := by
  unfold catchVEIE at h
  split at h
  · cases h; rfl
  · cases h

theorem ramStep_mono {stats : String} {m m' : GpuMetrics}
    (h : ramStep stats m = .ok m')
    (h1 : m.ram_used = none) (h2 : m.ram_total = none) (h3 : m.ram_percent = none) :
    (m'.ram_percent.isSome = true → m'.ram_total.isSome = true) ∧
    (m'.ram_total.isSome = true → m'.ram_used.isSome = true) := by
  unfold ramStep at h
  split at h
  · split at h
    · rw [catchVEIE_ok h]
      simp [h1, h2, h3]
    · split at h
      · rw [catchVEIE_ok h]
        simp [h1, h2, h3]
      · split at h
        · rw [catchVEIE_ok h]
          simp [h1, h2, h3]
        · split at h
          · rw [catchVEIE_ok h]
            simp [h2, h3]
          · split at h
            · rw [catchVEIE_ok h]
              simp [h3]
            · cases h
              simp
  · cases h
    simp [h1, h2, h3]

theorem cpuStep_ram {stats : String} {m m' : GpuMetrics}
    (h : cpuStep stats m = .ok m') :
    m'.ram_used = m.ram_used ∧ m'.ram_total = m.ram_total ∧
    m'.ram_percent = m.ram_percent := by
  unfold cpuStep at h
  split at h
  · split at h
    · rw [catchVEIE_ok h]
      exact ⟨rfl, rfl, rfl⟩
    · split at h
      · rw [catchVEIE_ok h]
        exact ⟨rfl, rfl, rfl⟩
      · cases h
        exact ⟨rfl, rfl, rfl⟩
  · cases h
    exact ⟨rfl, rfl, rfl⟩

theorem parsePrelude_ram (stats : String) :
    (parsePrelude stats).ram_used = none ∧ (parsePrelude stats).ram_total = none ∧
    (parsePrelude stats).ram_percent = none := by
  unfold parsePrelude
  split <;> split <;> split <;> split <;> split <;> exact ⟨rfl, rfl, rfl⟩

/-! ## Helper lemmas: bounds of round-half-to-even -/

theorem rhe_nonneg {q : ℚ} (h : 0 ≤ q) : 0 ≤ rhe q := by
  have hf : (0 : ℤ) ≤ ⌊q⌋ := Int.floor_nonneg.mpr h
  unfold rhe
  simp only []
  split_ifs <;> omega

theorem rhe_le_of_le {q : ℚ} {n : ℤ} (h : q ≤ (n : ℚ)) : rhe q ≤ n := by
  have hfl : ⌊q⌋ ≤ n := by
    calc ⌊q⌋ ≤ ⌊(n : ℚ)⌋ := Int.floor_le_floor h
    _ = n := Int.floor_intCast n
  have hq : (⌊q⌋ : ℚ) ≤ q := Int.floor_le q
  unfold rhe
  simp only []
  split_ifs with ha hb hc
  · exact hfl
  · have : (⌊q⌋ : ℚ) + 1 / 2 < (n : ℚ) := by linarith
    have : (⌊q⌋ : ℚ) < (n : ℚ) := by linarith
    have : ⌊q⌋ < n := by exact_mod_cast this
    omega
  · exact hfl
  · have hr : q - (⌊q⌋ : ℚ) = 1 / 2 := le_antisymm (not_lt.mp hb) (not_lt.mp ha)
    have : (⌊q⌋ : ℚ) + 1 / 2 ≤ (n : ℚ) := by linarith
    have : (⌊q⌋ : ℚ) < (n : ℚ) := by linarith
    have : ⌊q⌋ < n := by exact_mod_cast this
    omega

theorem round1_mem {q : ℚ} (h0 : 0 ≤ q) (h1 : q ≤ 100) :
    0 ≤ round1 q ∧ round1 q ≤ 100 := by
  have ha : (0 : ℤ) ≤ rhe (q * 10) := rhe_nonneg (by linarith)
  have hb : rhe (q * 10) ≤ (1000 : ℤ) := rhe_le_of_le (by push_cast; linarith)
  have ha' : (0 : ℚ) ≤ (rhe (q * 10) : ℚ) := by exact_mod_cast ha
  have hb' : ((rhe (q * 10) : ℚ)) ≤ 1000 := by exact_mod_cast hb
  unfold round1
  constructor <;> [positivity; linarith]

/-! ## Claim theorems -/

/-- C1: the claim says every public engine operation returns a value for
all diagnostic lines — including a RAM segment whose parsed total is 0 —
and all spawn outcomes.  The code violates this: on the line
`"RAM 100/0MB"` the percent computation raises `ZeroDivisionError`, which
is in neither `except (ValueError, IndexError)` nor
`except (subprocess.SubprocessError, ValueError)`, so it propagates out of
`get_jetson_gpu_metrics`, through `get_gpu_metrics`, and out of
`get_system_metrics` to the caller. -/
theorem C1_zero_ram_total_uncaught :
    get_jetson_gpu_metrics (.ok "RAM 100/0MB") = .error .zeroDivisionError ∧
    get_gpu_metrics true (.ok "RAM 100/0MB") true (.error "") =
      .error .zeroDivisionError ∧
    get_system_metrics
      { timestamp := "2025-01-01 00:00:00", cpu_percent := 0, memory := ⟨0, 0, 1⟩,
        memSrc := .ok (⟨0, 0, 1⟩, ⟨0, 0, 0, 0⟩), jetson := true,
        tegraGpu := .ok "RAM 100/0MB", tegraThermal := .ok "", throttleFile := .ok "0",
        nvmlInitOk := true, nvmlQuery := .error "", disk_percent := 0,
        netState := none, netCounters := ⟨0, 0⟩, netTime := 0, now := 0,
        boot_time := 0, system := "Linux", machine := "aarch64" } =
      .error .zeroDivisionError := by
  refine ⟨by decide, by decide, ?_⟩
  decide

/-- C3: the claim says every spawn failure — including an absent
executable — yields exactly the error payload.  An absent executable makes
`subprocess.Popen` raise `FileNotFoundError`, which is an `OSError`, not a
`subprocess.SubprocessError`, so the outer
`except (subprocess.SubprocessError, ValueError)` does not catch it and it
propagates; only `SubprocessError`-class spawn failures produce the
payload. -/
theorem C3_spawn_file_not_found_uncaught :
    get_jetson_gpu_metrics (.error .fileNotFoundError) = .error .fileNotFoundError ∧
    get_jetson_gpu_metrics (.error .subprocessError) = .ok gpuErrorMetrics := by
  exact ⟨by decide, by decide⟩

/-- C2 counterexample: on the line `"RAM 100/xyzMB"` the `/`-split
succeeds, `float("100")` is stored under `ram_used`, then `float("xyz")`
raises `ValueError`; the handler keeps the already-mutated dictionary, so
the result contains `ram_used` but neither `ram_total` nor `ram_percent` —
the RAM triplet is not all-or-nothing. -/
theorem C2_counterexample :
    get_jetson_gpu_metrics (.ok "RAM 100/xyzMB") = .ok { ram_used := some 100 } ∧
    ({ ram_used := some 100 } : GpuMetrics).ram_used.isSome = true ∧
    ({ ram_used := some 100 } : GpuMetrics).ram_total.isSome = false ∧
    ({ ram_used := some 100 } : GpuMetrics).ram_percent.isSome = false := by
  exact ⟨by decide, rfl, rfl, rfl⟩

/-- C2 (amended): the RAM fields are inserted one at a time in the order
used, total, percent, so a parse failure keeps the fields already
inserted and omits the rest: presence is monotone (percent ⇒ total ⇒
used), all three appear on a fully well-formed segment, and when only the
total fails to parse, `ram_used` alone remains. -/
theorem C2_ram_insertion_monotone :
    (∀ (spawn : Except PyExc String) (m : GpuMetrics),
      get_jetson_gpu_metrics spawn = .ok m →
      (m.ram_percent.isSome = true → m.ram_total.isSome = true) ∧
      (m.ram_total.isSome = true → m.ram_used.isSome = true)) ∧
    get_jetson_gpu_metrics (.ok "RAM 2048/8192MB") =
      .ok { ram_used := some 2048, ram_total := some 8192, ram_percent := some 25 } ∧
    get_jetson_gpu_metrics (.ok "RAM 100/xyzMB") = .ok { ram_used := some 100 } := by
  refine ⟨?_, by decide, by decide⟩
  intro spawn m h
  unfold get_jetson_gpu_metrics at h
  cases spawn with
  | error e =>
    by_cases hj : jetsonCatch e = true
    · simp only [hj, if_true] at h
      cases h
      simp [gpuErrorMetrics]
    · simp only [hj, if_false] at h
      cases h
  | ok line =>
    cases hr : ramStep (pyStrip line) (parsePrelude (pyStrip line)) with
    | error e =>
      simp only [hr] at h
      by_cases hj : jetsonCatch e = true
      · simp only [hj, if_true] at h
        cases h
        simp [gpuErrorMetrics]
      · simp only [hj, if_false] at h
        cases h
    | ok m1 =>
      simp only [hr] at h
      cases hc : cpuStep (pyStrip line) m1 with
      | error e =>
        simp only [hc] at h
        by_cases hj : jetsonCatch e = true
        · simp only [hj, if_true] at h
          cases h
          simp [gpuErrorMetrics]
        · simp only [hj, if_false] at h
          cases h
      | ok m2 =>
        simp only [hc, Except.ok.injEq] at h
        subst h
        obtain ⟨hu, ht, hp⟩ := cpuStep_ram hc
        obtain ⟨g1, g2, g3⟩ := parsePrelude_ram (pyStrip line)
        obtain ⟨k1, k2⟩ := ramStep_mono hr g1 g2 g3
        rw [hu, ht, hp]
        exact ⟨k1, k2⟩

/-- C7 counterexample: with an empty end marker the code calls
`split('')`, which raises `ValueError` ("empty separator"); the handler
returns `None`.  On `'KEY 42 rest'` with marker `'KEY'` the claimed result
is `42.0`, but the function returns `None`. -/
theorem C7_counterexample :
    parse_tegrastats_value "KEY 42 rest" "KEY" "" = .ok none ∧
    (Except.ok none : Except PyExc (Option ℚ)) ≠ .ok (some 42) := by
  exact ⟨by decide, by decide⟩

/-- C7 (amended): with an empty end marker, `parse_tegrastats_value`
returns `None` for every text and marker — the `split('')` call raises a
caught `ValueError` (or an earlier caught failure occurs), so the value is
never extracted. -/
theorem C7_empty_end_marker_yields_none (stats key : String) :
    parse_tegrastats_value stats key "" = .ok none := by
  unfold parse_tegrastats_value parse_tegrastats_body
  by_cases hc : pyContains stats key
  · rw [if_pos hc]
    unfold extractPart
    cases h1 : pySplit stats key with
    | error e1 =>
      simp [Bind.bind, Except.bind, pySplit_err h1, catchParseExc]
    | ok parts =>
      cases h2 : pyGetItem parts 1 with
      | error e2 =>
        simp [Bind.bind, Except.bind, h1, h2, pyGetItem_err h2, catchParseExc]
      | ok afterKey =>
        have h3 : pySplit afterKey "" = .error .valueError := rfl
        simp [Bind.bind, Except.bind, h1, h2, h3, catchParseExc]
  · rw [if_neg hc]
    rfl

/-- C10: any exception inside `get_memory_pressure_metrics` — a failing
psutil sampling call, or the `ZeroDivisionError` that
`calculate_memory_pressure` raises when the reported memory total is 0 —
is caught by `except Exception` and mapped to the fixed all-zero
structure rather than raised. -/
theorem C10_memory_pressure_fallback :
    (∀ e : PyExc, get_memory_pressure_metrics (.error e) = zeroMemoryPressureMetrics) ∧
    (∀ (memory : VirtualMemory) (swap : SwapMemory), memory.total = 0 →
      get_memory_pressure_metrics (.ok (memory, swap)) = zeroMemoryPressureMetrics) ∧
    (∀ (src : Except PyExc (VirtualMemory × SwapMemory)) (e : PyExc),
      memory_pressure_body src = .error e →
      get_memory_pressure_metrics src = zeroMemoryPressureMetrics) := by
  refine ⟨?_, ?_, ?_⟩
  · intro e
    rfl
  · intro memory swap h
    unfold get_memory_pressure_metrics memory_pressure_body
    unfold calculate_memory_pressure
    simp [Bind.bind, Except.bind, pure, Except.pure, pyDiv, h]
  · intro src e h
    unfold get_memory_pressure_metrics
    rw [h]

/-- C2 witness: the monotone-presence property applied at the concrete
partially-parsed line. -/
theorem C2_witness :
    get_jetson_gpu_metrics (.ok "RAM 100/xyzMB") = .ok { ram_used := some 100 } ∧
    (({ ram_used := some 100 } : GpuMetrics).ram_total.isSome = true →
      ({ ram_used := some 100 } : GpuMetrics).ram_used.isSome = true) :=
  ⟨by decide,
   (C2_ram_insertion_monotone.1 (.ok "RAM 100/xyzMB") { ram_used := some 100 }
     (by decide)).2⟩

/-- C6 counterexample: the claim says a text truncated before the end
marker yields absence.  On `"GR3D_FREQ 75"` with end marker `%` — which
does not occur in the text — `split('%')` simply returns the whole
remainder, which parses, and the call returns `75.0`, not `None`.  (No
indexing in the function can go out of range once the marker is
present.) -/
theorem C6_counterexample :
    parse_val "GR3D_FREQ 75" "GR3D_FREQ" "%" = some 75 ∧
    pyContains "GR3D_FREQ 75" "%" = false :=
  ⟨by decide, by decide⟩

/-- C6 (amended): `parse_tegrastats_value` never raises — every internal
failure is a caught `ValueError` or `IndexError` — and returns `None`
when the marker is absent or when the extracted substring (the remainder
of the line, when the end marker is absent) fails to parse as a number;
truncation before the end marker causes no out-of-range access and may
still return a value. -/
theorem C6_parse_absence :
    (∀ stats key unit : String, ∃ v, parse_tegrastats_value stats key unit = .ok v) ∧
    (∀ stats key unit : String, pyContains stats key = false →
      parse_tegrastats_value stats key unit = .ok none) ∧
    (∀ (stats key unit part : String) (e : PyExc),
      extractPart stats key unit = .ok part → pyFloat part = .error e →
      parse_tegrastats_value stats key unit = .ok none) := by
  refine ⟨parse_tegrastats_value_total, ?_, ?_⟩
  · intro stats key unit hc
    unfold parse_tegrastats_value parse_tegrastats_body
    rw [if_neg (by simp [hc])]
    rfl
  · intro stats key unit part e hex hf
    unfold parse_tegrastats_value parse_tegrastats_body
    by_cases hc : pyContains stats key = true
    · rw [if_pos hc]
      simp [Bind.bind, Except.bind, hex, hf, pyFloat_err hf, catchParseExc]
    · rw [if_neg hc]
      rfl

/-- C6 witness: absence of the marker at a concrete line. -/
theorem C6_witness :
    pyContains "RAM 2048/8192MB gpu@45C" "GR3D_FREQ" = false ∧
    parse_tegrastats_value "RAM 2048/8192MB gpu@45C" "GR3D_FREQ" "%" = .ok none :=
  ⟨by decide,
   C6_parse_absence.2.1 "RAM 2048/8192MB gpu@45C" "GR3D_FREQ" "%" (by decide)⟩

/-- C5: the network tracker returns zero speeds on the first call (no
stored sample), the counter delta divided by the time delta when
`dt > 0`, and zero speeds when `dt ≤ 0`; in every case the stored state
is replaced by the current counters and time.  Concretely, counters
(1000, 2000) at t = 1000 followed by (2000, 4000) at t = 1002 give
sent_speed 500 and recv_speed 1000. -/
theorem C5_network_throughput :
    (∀ (cur : NetCounters) (t : ℚ),
      (get_network_metrics none cur t).1.sent_speed = 0 ∧
      (get_network_metrics none cur t).1.recv_speed = 0 ∧
      (get_network_metrics none cur t).2 = ⟨cur, t⟩) ∧
    (∀ (st : NetState) (cur : NetCounters) (t : ℚ), 0 < t - st.prev_time →
      (get_network_metrics (some st) cur t).1.sent_speed =
        ((cur.bytes_sent : ℚ) - (st.prev_counters.bytes_sent : ℚ)) / (t - st.prev_time) ∧
      (get_network_metrics (some st) cur t).1.recv_speed =
        ((cur.bytes_recv : ℚ) - (st.prev_counters.bytes_recv : ℚ)) / (t - st.prev_time) ∧
      (get_network_metrics (some st) cur t).2 = ⟨cur, t⟩) ∧
    (∀ (st : NetState) (cur : NetCounters) (t : ℚ), t - st.prev_time ≤ 0 →
      (get_network_metrics (some st) cur t).1.sent_speed = 0 ∧
      (get_network_metrics (some st) cur t).1.recv_speed = 0 ∧
      (get_network_metrics (some st) cur t).2 = ⟨cur, t⟩) ∧
    ((get_network_metrics (some ⟨⟨1000, 2000⟩, 1000⟩) ⟨2000, 4000⟩ 1002).1.sent_speed = 500 ∧
     (get_network_metrics (some ⟨⟨1000, 2000⟩, 1000⟩) ⟨2000, 4000⟩ 1002).1.recv_speed = 1000) := by
  refine ⟨fun cur t => ⟨rfl, rfl, rfl⟩, ?_, ?_, by decide, by decide⟩
  · intro st cur t ht
    unfold get_network_metrics
    simp only [gt_iff_lt, ht, if_true]
    refine ⟨?_, ?_, ?_⟩ <;> first
      | rfl
      | trivial
  · intro st cur t ht
    unfold get_network_metrics
    simp only [gt_iff_lt, not_lt.mpr ht, if_false]
    refine ⟨?_, ?_, ?_⟩ <;> first
      | rfl
      | trivial

/-- C5 witness: the positive-delta case at the concrete sample pair. -/
theorem C5_witness :
    0 < (1002 : ℚ) - ((⟨⟨1000, 2000⟩, 1000⟩ : NetState)).prev_time ∧
    (get_network_metrics (some ⟨⟨1000, 2000⟩, 1000⟩) ⟨2000, 4000⟩ 1002).1.sent_speed =
      (((⟨2000, 4000⟩ : NetCounters).bytes_sent : ℚ) -
        (((⟨⟨1000, 2000⟩, 1000⟩ : NetState)).prev_counters.bytes_sent : ℚ)) /
        ((1002 : ℚ) - ((⟨⟨1000, 2000⟩, 1000⟩ : NetState)).prev_time) :=
  ⟨by norm_num,
   (C5_network_throughput.2.1 ⟨⟨1000, 2000⟩, 1000⟩ ⟨2000, 4000⟩ 1002 (by norm_num)).1⟩

theorem memoryPressureSpec_mem (a b c d : ℚ) :
    0 ≤ memoryPressureSpec a b c d ∧ memoryPressureSpec a b c d ≤ 100 := by
  unfold memoryPressureSpec
  refine round1_mem ?_ ?_ <;> split_ifs
  · exact le_min (le_min (by norm_num) (le_max_left 0 _)) (by norm_num)
  · exact le_min (by norm_num) (le_max_left 0 _)
  · exact le_trans (min_le_left _ _) (min_le_left _ _)
  · exact min_le_left _ _

/-- C4: for a positive memory total, `calculate_memory_pressure` returns
exactly the specification formula — raw weighted sum, clamp to [0, 100],
then the 50-cap exactly when memoryPercent < 50 and swapPercent < 20,
rounded to one decimal — the result lies in [0, 100], and
Score(60, 4 GiB, 16 GiB, 10) = 51.5. -/
theorem C4_memory_pressure_formula :
    (∀ (memory : VirtualMemory) (swap : SwapMemory), 0 < memory.total →
      calculate_memory_pressure memory swap =
        .ok (memoryPressureSpec memory.percent memory.available memory.total swap.percent) ∧
      0 ≤ memoryPressureSpec memory.percent memory.available memory.total swap.percent ∧
      memoryPressureSpec memory.percent memory.available memory.total swap.percent ≤ 100) ∧
    calculate_memory_pressure ⟨60, 4 * 1024 ^ 3, 16 * 1024 ^ 3⟩ ⟨10, 0, 0, 0⟩ =
      .ok (51.5 : ℚ) := by
  refine ⟨?_, by decide⟩
  intro memory swap h
  have hne : memory.total ≠ 0 := ne_of_gt h
  refine ⟨?_, (memoryPressureSpec_mem _ _ _ _).1, (memoryPressureSpec_mem _ _ _ _).2⟩
  unfold calculate_memory_pressure memoryPressureSpec
  simp [Bind.bind, Except.bind, pure, Except.pure, pyDiv, hne]

/-- C4 witness: the formula theorem applied at the concrete sample. -/
theorem C4_witness :
    0 < ((⟨60, 4 * 1024 ^ 3, 16 * 1024 ^ 3⟩ : VirtualMemory)).total ∧
    (calculate_memory_pressure ⟨60, 4 * 1024 ^ 3, 16 * 1024 ^ 3⟩ ⟨10, 0, 0, 0⟩ =
      .ok (memoryPressureSpec 60 (4 * 1024 ^ 3) (16 * 1024 ^ 3) 10) ∧
     0 ≤ memoryPressureSpec 60 (4 * 1024 ^ 3) (16 * 1024 ^ 3) 10 ∧
     memoryPressureSpec 60 (4 * 1024 ^ 3) (16 * 1024 ^ 3) 10 ≤ 100) :=
  ⟨by norm_num,
   C4_memory_pressure_formula.1 ⟨60, 4 * 1024 ^ 3, 16 * 1024 ^ 3⟩ ⟨10, 0, 0, 0⟩
     (by norm_num)⟩

/-- C10 witness: the fallback at a concrete zero-total memory sample. -/
theorem C10_witness :
    ((⟨60, 0, 0⟩ : VirtualMemory)).total = 0 ∧
    get_memory_pressure_metrics (.ok (⟨60, 0, 0⟩, ⟨10, 0, 0, 0⟩)) =
      zeroMemoryPressureMetrics :=
  ⟨rfl, C10_memory_pressure_fallback.2.1 ⟨60, 0, 0⟩ ⟨10, 0, 0, 0⟩ rfl⟩

theorem thermal_status_cases (jetson : Bool) (tegra throttleFile : Except PyExc String) :
    (get_thermal_throttling_status jetson tegra throttleFile).status = "Normal" ∨
    (get_thermal_throttling_status jetson tegra throttleFile).status = "Throttled" ∨
    (get_thermal_throttling_status jetson tegra throttleFile).status = "Unknown" ∨
    (get_thermal_throttling_status jetson tegra throttleFile).status = "Error" := by
  unfold get_thermal_throttling_status thermal_body
  cases jetson with
  | false =>
    simp only [Bool.false_eq_true, if_false]
    cases throttleFile with
    | error e =>
      by_cases hc : (e = PyExc.fileNotFoundError || e = PyExc.permissionError ||
          e = PyExc.valueError) = true
      · simp [Bind.bind, Except.bind, hc]
      · simp [Bind.bind, Except.bind, hc]
    | ok c =>
      cases hn : pyInt (pyStrip c) with
      | ok n =>
        by_cases hp : n > 0
        · simp [Bind.bind, Except.bind, hn, hp]
        · simp [Bind.bind, Except.bind, hn, hp]
      | error e =>
        simp [Bind.bind, Except.bind, hn, pyInt_err hn]
  | true =>
    cases tegra with
    | error e => simp [Bind.bind, Except.bind]
    | ok line =>
      by_cases ht : (pyContains (pyStrip line) "CPU_THROTTLE" ||
          pyContains (pyStrip line) "GPU_THROTTLE") = true
      · simp [Bind.bind, Except.bind, pure, Except.pure, ht]
      · simp [Bind.bind, Except.bind, pure, Except.pure, ht]

theorem thermal_nonjetson_count {content : String} {n : ℤ}
    (h : pyInt (pyStrip content) = .ok n) (tegra : Except PyExc String) :
    get_thermal_throttling_status false tegra (.ok content) =
      ⟨decide (n > 0), false, if n > 0 then "Throttled" else "Normal"⟩ := by
  unfold get_thermal_throttling_status thermal_body
  simp [Bind.bind, Except.bind, h]

theorem thermal_nonjetson_badparse {content : String} {e : PyExc}
    (h : pyInt (pyStrip content) = .error e) (tegra : Except PyExc String) :
    get_thermal_throttling_status false tegra (.ok content) =
      ⟨false, false, "Unknown"⟩ := by
  unfold get_thermal_throttling_status thermal_body
  simp [Bind.bind, Except.bind, h, pyInt_err h]

/-- C8: the thermal probe always returns one of the four statuses and
never propagates a fault (the embedding is a total function because the
source wraps the whole body in `except Exception`).  On a standard
(non-Jetson) host: a readable, numeric counter file gives
`cpu_throttled = (count > 0)`, `gpu_throttled = false` and
Throttled/Normal accordingly; a missing or permission-denied file, or an
unparseable content, gives status Unknown with both flags false. -/
theorem C8_thermal_status :
    (∀ (jetson : Bool) (tegra throttleFile : Except PyExc String),
      (get_thermal_throttling_status jetson tegra throttleFile).status = "Normal" ∨
      (get_thermal_throttling_status jetson tegra throttleFile).status = "Throttled" ∨
      (get_thermal_throttling_status jetson tegra throttleFile).status = "Unknown" ∨
      (get_thermal_throttling_status jetson tegra throttleFile).status = "Error") ∧
    (∀ (tegra : Except PyExc String) (content : String) (n : ℤ),
      pyInt (pyStrip content) = .ok n →
      get_thermal_throttling_status false tegra (.ok content) =
        ⟨decide (n > 0), false, if n > 0 then "Throttled" else "Normal"⟩) ∧
    (∀ (tegra : Except PyExc String) (content : String) (e : PyExc),
      pyInt (pyStrip content) = .error e →
      get_thermal_throttling_status false tegra (.ok content) =
        ⟨false, false, "Unknown"⟩) ∧
    (∀ tegra : Except PyExc String,
      get_thermal_throttling_status false tegra (.error .fileNotFoundError) =
        ⟨false, false, "Unknown"⟩ ∧
      get_thermal_throttling_status false tegra (.error .permissionError) =
        ⟨false, false, "Unknown"⟩) := by
  refine ⟨thermal_status_cases, fun tegra content n h => thermal_nonjetson_count h tegra,
    fun tegra content e h => thermal_nonjetson_badparse h tegra,
    fun tegra => ⟨rfl, rfl⟩⟩

/-- C8 witness: the readable-numeric case at counter value 5. -/
theorem C8_witness :
    pyInt (pyStrip "5") = .ok 5 ∧
    get_thermal_throttling_status false (.ok "") (.ok "5") =
      ⟨true, false, "Throttled"⟩ := by
  refine ⟨by decide, ?_⟩
  have h := C8_thermal_status.2.1 (.ok "") "5" 5 (by decide)
  simpa using h

theorem fixedDigits_length (d fp : Nat) : (fixedDigits d fp).length = d := by
  unfold fixedDigits
  simp [String.length]

theorem pyFormatFixed_decompose (d : Nat) (q : ℚ) (hd : d ≠ 0) (hq : 0 ≤ q) :
    pyFormatFixed d q = toString ((rhe (q * 10 ^ d)).toNat / 10 ^ d) ++ "." ++
      fixedDigits d ((rhe (q * 10 ^ d)).toNat % 10 ^ d) := by
  unfold pyFormatFixed pyFormatFixedNonneg
  rw [if_neg (not_lt.mpr hq)]
  simp [hd]

/-- C9: `format_bytes` renders byte counts by threshold — at least 1 GiB
as a 2-decimal number suffixed " GB", at least 1 MiB as a 1-decimal
number suffixed " MB", at least 1 KiB as a 1-decimal number suffixed
" KB", and below that as the raw integer suffixed " B" — with the claimed
concrete values at 512, 1024, 1048576, 1073741824 and 1572864. -/
theorem C9_format_bytes :
    (∀ n : Nat, 2 ^ 30 ≤ n → ∃ a b : String,
      format_bytes n = a ++ "." ++ b ++ " GB" ∧ b.length = 2) ∧
    (∀ n : Nat, 2 ^ 20 ≤ n → n < 2 ^ 30 → ∃ a b : String,
      format_bytes n = a ++ "." ++ b ++ " MB" ∧ b.length = 1) ∧
    (∀ n : Nat, 2 ^ 10 ≤ n → n < 2 ^ 20 → ∃ a b : String,
      format_bytes n = a ++ "." ++ b ++ " KB" ∧ b.length = 1) ∧
    (∀ n : Nat, n < 2 ^ 10 → format_bytes n = toString n ++ " B") ∧
    (format_bytes 512 = "512 B" ∧ format_bytes 1024 = "1.0 KB" ∧
     format_bytes 1048576 = "1.0 MB" ∧ format_bytes 1073741824 = "1.00 GB" ∧
     format_bytes 1572864 = "1.5 MB") := by
  refine ⟨?_, ?_, ?_, ?_, by decide, by decide, by decide, by decide, by decide⟩
  · intro n h
    have hc1 : (n : ℚ) ≥ BYTES_PER_MB * 1024 := by
      have h' : (1073741824 : ℕ) ≤ n := by omega
      unfold BYTES_PER_MB
      rw [ge_iff_le]
      norm_num
      exact_mod_cast h'
    refine ⟨toString ((rhe ((n : ℚ) / (BYTES_PER_MB * 1024) * 10 ^ 2)).toNat / 10 ^ 2),
      fixedDigits 2 ((rhe ((n : ℚ) / (BYTES_PER_MB * 1024) * 10 ^ 2)).toNat % 10 ^ 2),
      ?_, fixedDigits_length 2 _⟩
    unfold format_bytes
    rw [if_pos hc1,
      pyFormatFixed_decompose 2 _ (by norm_num) (by unfold BYTES_PER_MB; positivity)]
  · intro n h1 h2
    have hq1 : ¬ ((n : ℚ) ≥ BYTES_PER_MB * 1024) := by
      have h' : n < 1073741824 := by omega
      unfold BYTES_PER_MB
      rw [ge_iff_le, not_le]
      norm_num
      exact_mod_cast h'
    have hq2 : (n : ℚ) ≥ BYTES_PER_MB := by
      have h' : (1048576 : ℕ) ≤ n := by omega
      unfold BYTES_PER_MB
      rw [ge_iff_le]
      norm_num
      exact_mod_cast h'
    refine ⟨toString ((rhe ((n : ℚ) / BYTES_PER_MB * 10 ^ 1)).toNat / 10 ^ 1),
      fixedDigits 1 ((rhe ((n : ℚ) / BYTES_PER_MB * 10 ^ 1)).toNat % 10 ^ 1),
      ?_, fixedDigits_length 1 _⟩
    unfold format_bytes
    rw [if_neg hq1, if_pos hq2,
      pyFormatFixed_decompose 1 _ (by norm_num) (by unfold BYTES_PER_MB; positivity)]
  · intro n h1 h2
    have hq1 : ¬ ((n : ℚ) ≥ BYTES_PER_MB * 1024) := by
      have h' : n < 1073741824 := by omega
      unfold BYTES_PER_MB
      rw [ge_iff_le, not_le]
      norm_num
      exact_mod_cast h'
    have hq2 : ¬ ((n : ℚ) ≥ BYTES_PER_MB) := by
      have h' : n < 1048576 := by omega
      unfold BYTES_PER_MB
      rw [ge_iff_le, not_le]
      norm_num
      exact_mod_cast h'
    have hq3 : (n : ℚ) ≥ BYTES_PER_KB := by
      have h' : (1024 : ℕ) ≤ n := by omega
      unfold BYTES_PER_KB
      rw [ge_iff_le]
      exact_mod_cast h'
    refine ⟨toString ((rhe ((n : ℚ) / BYTES_PER_KB * 10 ^ 1)).toNat / 10 ^ 1),
      fixedDigits 1 ((rhe ((n : ℚ) / BYTES_PER_KB * 10 ^ 1)).toNat % 10 ^ 1),
      ?_, fixedDigits_length 1 _⟩
    unfold format_bytes
    rw [if_neg hq1, if_neg hq2, if_pos hq3,
      pyFormatFixed_decompose 1 _ (by norm_num) (by unfold BYTES_PER_KB; positivity)]
  · intro n h
    have hq1 : ¬ ((n : ℚ) ≥ BYTES_PER_MB * 1024) := by
      have h' : n < 1073741824 := by omega
      unfold BYTES_PER_MB
      rw [ge_iff_le, not_le]
      norm_num
      exact_mod_cast h'
    have hq2 : ¬ ((n : ℚ) ≥ BYTES_PER_MB) := by
      have h' : n < 1048576 := by omega
      unfold BYTES_PER_MB
      rw [ge_iff_le, not_le]
      norm_num
      exact_mod_cast h'
    have hq3 : ¬ ((n : ℚ) ≥ BYTES_PER_KB) := by
      have h' : n < 1024 := by omega
      unfold BYTES_PER_KB
      rw [ge_iff_le, not_le]
      exact_mod_cast h'
    unfold format_bytes
    rw [if_neg hq1, if_neg hq2, if_neg hq3]

/-- C9 witness: the raw-bytes branch applied at 512. -/
theorem C9_witness :
    (512 : ℕ) < 2 ^ 10 ∧ format_bytes 512 = toString (512 : ℕ) ++ " B" :=
  ⟨by norm_num, C9_format_bytes.2.2.2.1 512 (by norm_num)⟩

end JetsonMonitor
